import Mathlib

/-!
Verification of the risk-metric layer of student_t_var_cvar
(src/src/risk_metrics.py).

The four functions compute_var_normal, compute_cvar_normal,
compute_var_student_t and compute_cvar_student_t are pure arithmetic over
floats plus calls into scipy special functions (norm.ppf, norm.pdf,
t.ppf, t.pdf).  We embed the arithmetic over ℚ and take the external
special functions as explicit function parameters (the spec itself treats
the special-function library as an interface dependency exposing
quantile and density).  Analytic facts about the true normal / Student-t
quantile and density that a theorem needs are stated as hypotheses on
those parameters.
-/

namespace RiskMetrics

/-- Embedding of compute_var_normal (src/src/risk_metrics.py, lines 11-23):
    return mu + sigma * norm.ppf(alpha).  ppf stands for norm.ppf. -/
def compute_var_normal (ppf : ℚ → ℚ) (mu sigma alpha : ℚ) : ℚ :=
  mu + sigma * ppf alpha

/-- Embedding of compute_cvar_normal (src/src/risk_metrics.py, lines 25-36):
    z = norm.ppf(alpha); return mu - sigma * (norm.pdf(z) / alpha). -/
def compute_cvar_normal (ppf pdf : ℚ → ℚ) (mu sigma alpha : ℚ) : ℚ :=
  let z := ppf alpha
  mu - sigma * (pdf z / alpha)

/-- Embedding of compute_var_student_t (src/src/risk_metrics.py, lines 38-51):
    return loc + scale * t.ppf(alpha, df).  tppf stands for t.ppf. -/
def compute_var_student_t (tppf : ℚ → ℚ → ℚ) (df loc scale alpha : ℚ) : ℚ :=
  loc + scale * tppf alpha df

/-- Embedding of compute_cvar_student_t (src/src/risk_metrics.py, lines 53-66):
    t_q = t.ppf(alpha, df); density = t.pdf(t_q, df);
    adjustment = (df + t_q**2) / (df - 1);
    return loc - scale * (density / alpha) * adjustment.
    The source performs NO validation of df, scale or alpha. -/
def compute_cvar_student_t (tppf tpdf : ℚ → ℚ → ℚ) (df loc scale alpha : ℚ) : ℚ :=
  let t_q := tppf alpha df
  let density := tpdf t_q df
  let adjustment := (df + t_q ^ 2) / (df - 1)
  loc - scale * (density / alpha) * adjustment

/-- Spec-side formula for the Student-t CVaR, transcribed from the spec text:
    q = T⁻¹(alpha, df), density = t_pdf(q, df),
    adjust = (df + q²) / (df − 1), result = location − scale * (density / alpha) * adjust. -/
def cvar_student_t_spec_formula (tppf tpdf : ℚ → ℚ → ℚ) (df loc scale alpha : ℚ) : ℚ :=
  loc - scale * (tpdf (tppf alpha df) df / alpha) * ((df + (tppf alpha df) ^ 2) / (df - 1))

/-- Spec-side formula for the Normal VaR, transcribed from the spec text:
    mean + stddev * Φ⁻¹(alpha). -/
def var_normal_spec_formula (ppf : ℚ → ℚ) (mu sigma alpha : ℚ) : ℚ :=
  mu + sigma * ppf alpha

/-- Spec-side formula for the Normal CVaR, transcribed from the spec text:
    mean - stddev * φ(Φ⁻¹(alpha)) / alpha. -/
def cvar_normal_spec_formula (ppf pdf : ℚ → ℚ) (mu sigma alpha : ℚ) : ℚ :=
  mu - sigma * pdf (ppf alpha) / alpha

end RiskMetrics

namespace RiskMetrics

/-- C1: the claim says compute_cvar_student_t raises InvalidParameter for
degreesOfFreedom ≤ 1.  The code has no guard at all: for df < 1 it evaluates
the formula with a negative (df − 1) denominator and returns a finite,
sign-flipped number strictly ABOVE the location (a "risk" above the mean),
instead of raising.  Hypotheses: density and alpha and scale positive, as
for any genuine Student-t evaluation. -/
theorem C1_cvar_student_t_low_df_sign_flip
    (tppf tpdf : ℚ → ℚ → ℚ) (df loc scale alpha : ℚ)
    (hdf : df < 1)
    (hnum : 0 < df + (tppf alpha df) ^ 2)
    (hd : 0 < tpdf (tppf alpha df) df)
    (ha : 0 < alpha) (hs : 0 < scale) :
    loc < compute_cvar_student_t tppf tpdf df loc scale alpha := by
  have hfrac : 0 < tpdf (tppf alpha df) df / alpha := div_pos hd ha
  have hadj : (df + (tppf alpha df) ^ 2) / (df - 1) < 0 :=
    div_neg_of_pos_of_neg hnum (by linarith)
  have hneg : scale * (tpdf (tppf alpha df) df / alpha) *
      ((df + (tppf alpha df) ^ 2) / (df - 1)) < 0 :=
    mul_neg_of_pos_of_neg (mul_pos hs hfrac) hadj
  simp only [compute_cvar_student_t]
  linarith

/-- Witness for C1: at degreesOfFreedom = 1/2, location = 0, scale = 1,
alpha = 1/20, with quantile −2 and density 1/10 standing in for the library,
the code returns a positive number (18) rather than raising. -/
theorem C1_witness :
    (0 : ℚ) < compute_cvar_student_t (fun _ _ => -2) (fun _ _ => 1/10) (1/2) 0 1 (1/20) :=
  C1_cvar_student_t_low_df_sign_flip (fun _ _ => -2) (fun _ _ => 1/10) (1/2) 0 1 (1/20)
    (by norm_num) (by norm_num) (by norm_num) (by norm_num) (by norm_num)

/-- C2: for degreesOfFreedom > 1, scale > 0 and alpha in (0,1), the code's
compute_cvar_student_t returns exactly the spec formula
location − scale * (density / alpha) * adjust with
adjust = (df + q²) / (df − 1). -/
theorem C2_cvar_student_t_matches_spec
    (tppf tpdf : ℚ → ℚ → ℚ) (df loc scale alpha : ℚ)
    (hdf : 1 < df) (hs : 0 < scale) (ha0 : 0 < alpha) (ha1 : alpha < 1) :
    compute_cvar_student_t tppf tpdf df loc scale alpha =
      cvar_student_t_spec_formula tppf tpdf df loc scale alpha := rfl

/-- Witness for C2: the equality at df = 3, loc = 0, scale = 1, alpha = 1/20,
with concrete stand-ins for the library functions. -/
theorem C2_witness :
    compute_cvar_student_t (fun _ _ => -2) (fun _ _ => 1/10) 3 0 1 (1/20) =
      cvar_student_t_spec_formula (fun _ _ => -2) (fun _ _ => 1/10) 3 0 1 (1/20) :=
  C2_cvar_student_t_matches_spec (fun _ _ => -2) (fun _ _ => 1/10) 3 0 1 (1/20)
    (by norm_num) (by norm_num) (by norm_num) (by norm_num)

/-- C3: the claim says compute_var_normal raises InvalidParameter whenever
stddev ≤ 0 or alpha is outside (0,1), before any quantile evaluation.  The
code has no validation: for ANY ppf, ANY mu and ANY alpha (including alpha
outside (0,1)) it evaluates the formula at the invalid stddev = 0 and
returns mu instead of raising. -/
theorem C3_var_normal_no_validation (ppf : ℚ → ℚ) (mu alpha : ℚ) :
    compute_var_normal ppf mu 0 alpha = mu := by
  simp [compute_var_normal]

/-- C4: for stddev > 0 and alpha in (0,1), compute_var_normal equals
mean + stddev * Φ⁻¹(alpha); and when alpha < 1/2 the result is strictly
below the mean.  The second part uses two analytic facts of the
standard-normal quantile: it is strictly increasing on (0,1), and
Φ⁻¹(1/2) = 0. -/
theorem C4_var_normal_correct
    (ppf : ℚ → ℚ) (mu sigma alpha : ℚ)
    (hs : 0 < sigma) (ha0 : 0 < alpha) (ha1 : alpha < 1)
    (hmono : ∀ a b : ℚ, 0 < a → a < b → b < 1 → ppf a < ppf b)
    (hhalf : ppf (1/2) = 0) :
    compute_var_normal ppf mu sigma alpha = var_normal_spec_formula ppf mu sigma alpha
      ∧ (alpha < 1/2 → compute_var_normal ppf mu sigma alpha < mu) := by
  refine ⟨rfl, fun hlt => ?_⟩
  have hq : ppf alpha < 0 := by
    have h2 := hmono alpha (1/2) ha0 hlt (by norm_num)
    rwa [hhalf] at h2
  have : sigma * ppf alpha < 0 := mul_neg_of_pos_of_neg hs hq
  simp only [compute_var_normal]
  linarith

/-- Witness for C4: at mu = 0, sigma = 1, alpha = 1/4, with the strictly
increasing stand-in quantile a ↦ a − 1/2 (which vanishes at 1/2), the VaR
equals the spec formula and is strictly below the mean. -/
theorem C4_witness :
    compute_var_normal (fun a => a - 1/2) 0 1 (1/4) =
        var_normal_spec_formula (fun a => a - 1/2) 0 1 (1/4)
      ∧ ((1:ℚ)/4 < 1/2 → compute_var_normal (fun a => a - 1/2) 0 1 (1/4) < 0) :=
  C4_var_normal_correct (fun a => a - 1/2) 0 1 (1/4)
    (by norm_num) (by norm_num) (by norm_num)
    (fun a b _ hab _ => by simpa using hab) (by norm_num)

/-- C5: for stddev > 0 and alpha in (0,1), compute_cvar_normal equals
mean − stddev * φ(Φ⁻¹(alpha)) / alpha.  The code groups the product as
sigma * (pdf z / alpha); the two expressions agree by associativity of
multiplication and division. -/
theorem C5_cvar_normal_correct
    (ppf pdf : ℚ → ℚ) (mu sigma alpha : ℚ)
    (hs : 0 < sigma) (ha0 : 0 < alpha) (ha1 : alpha < 1) :
    compute_cvar_normal ppf pdf mu sigma alpha =
      cvar_normal_spec_formula ppf pdf mu sigma alpha := by
  simp only [compute_cvar_normal, cvar_normal_spec_formula]
  ring

/-- Witness for C5: the equality at mu = 0, sigma = 1, alpha = 1/20 with
concrete stand-ins for the library functions. -/
theorem C5_witness :
    compute_cvar_normal (fun a => a - 1/2) (fun _ => 1/10) 0 1 (1/20) =
      cvar_normal_spec_formula (fun a => a - 1/2) (fun _ => 1/10) 0 1 (1/20) :=
  C5_cvar_normal_correct (fun a => a - 1/2) (fun _ => 1/10) 0 1 (1/20)
    (by norm_num) (by norm_num) (by norm_num)

/-- C6: for stddev > 0 and alpha in (0, 1/2), the Normal CVaR is at most the
Normal VaR.  The analytic input is the Mills-ratio inequality of the
standard normal, alpha * Φ⁻¹(alpha) + φ(Φ⁻¹(alpha)) ≥ 0 (the density at the
alpha-quantile dominates alpha times the quantile's magnitude), stated as a
hypothesis on the library functions. -/
theorem C6_cvar_le_var_normal
    (ppf pdf : ℚ → ℚ) (mu sigma alpha : ℚ)
    (hs : 0 < sigma) (ha0 : 0 < alpha) (ha2 : alpha < 1/2)
    (hmills : 0 ≤ alpha * ppf alpha + pdf (ppf alpha)) :
    compute_cvar_normal ppf pdf mu sigma alpha ≤
      compute_var_normal ppf mu sigma alpha := by
  have key : 0 ≤ sigma * (ppf alpha + pdf (ppf alpha) / alpha) := by
    have h := mul_nonneg hs.le (div_nonneg hmills ha0.le)
    rwa [add_div, mul_div_cancel_left₀ _ (ne_of_gt ha0)] at h
  rw [mul_add] at key
  simp only [compute_cvar_normal, compute_var_normal]
  linarith

/-- Witness for C6: at mu = 0, sigma = 1, alpha = 1/4 with stand-ins
ppf = a ↦ a − 1/2 and pdf = constant 1, the Mills hypothesis holds
(1/4 · (−1/4) + 1 ≥ 0) and CVaR ≤ VaR. -/
theorem C6_witness :
    compute_cvar_normal (fun a => a - 1/2) (fun _ => 1) 0 1 (1/4) ≤
      compute_var_normal (fun a => a - 1/2) 0 1 (1/4) :=
  C6_cvar_le_var_normal (fun a => a - 1/2) (fun _ => 1) 0 1 (1/4)
    (by norm_num) (by norm_num) (by norm_num) (by norm_num)

/-- C7: scale invariance of the Normal VaR at mean 0:
compute_var_normal 0 (k * sigma) alpha = k * compute_var_normal 0 sigma alpha
for k > 0, sigma > 0, alpha in (0,1). -/
theorem C7_var_normal_scale_invariance
    (ppf : ℚ → ℚ) (k sigma alpha : ℚ)
    (hk : 0 < k) (hs : 0 < sigma) (ha0 : 0 < alpha) (ha1 : alpha < 1) :
    compute_var_normal ppf 0 (k * sigma) alpha =
      k * compute_var_normal ppf 0 sigma alpha := by
  simp only [compute_var_normal]
  ring

/-- Witness for C7: at k = 3, sigma = 2, alpha = 1/20 with the linear
stand-in quantile. -/
theorem C7_witness :
    compute_var_normal (fun a => a - 1/2) 0 (3 * 2) (1/20) =
      3 * compute_var_normal (fun a => a - 1/2) 0 2 (1/20) :=
  C7_var_normal_scale_invariance (fun a => a - 1/2) 3 2 (1/20)
    (by norm_num) (by norm_num) (by norm_num) (by norm_num)

/-- C8: with location 0 and scale > 0, decreasing alpha strictly decreases
each of the four results.  Stated for a1 < a2 in (0,1).  The analytic
inputs, stated as hypotheses on the library functions, are: the Normal and
Student-t quantiles are strictly increasing in alpha, and the tail factors
φ(Φ⁻¹(a))/a and (t_pdf(q_a)/a)·((df + q_a²)/(df − 1)) are strictly
decreasing in alpha (standard facts about the two expected-shortfall
formulas for df > 1). -/
theorem C8_alpha_monotonicity
    (ppf pdf : ℚ → ℚ) (tppf tpdf : ℚ → ℚ → ℚ)
    (df scale a1 a2 : ℚ)
    (hs : 0 < scale) (h0 : 0 < a1) (h12 : a1 < a2) (h21 : a2 < 1) (hdf : 1 < df)
    (hq : ppf a1 < ppf a2)
    (hc : pdf (ppf a2) / a2 < pdf (ppf a1) / a1)
    (htq : tppf a1 df < tppf a2 df)
    (htc : tpdf (tppf a2 df) df / a2 * ((df + (tppf a2 df) ^ 2) / (df - 1)) <
           tpdf (tppf a1 df) df / a1 * ((df + (tppf a1 df) ^ 2) / (df - 1))) :
    compute_var_normal ppf 0 scale a1 < compute_var_normal ppf 0 scale a2
    ∧ compute_cvar_normal ppf pdf 0 scale a1 < compute_cvar_normal ppf pdf 0 scale a2
    ∧ compute_var_student_t tppf df 0 scale a1 < compute_var_student_t tppf df 0 scale a2
    ∧ compute_cvar_student_t tppf tpdf df 0 scale a1 <
        compute_cvar_student_t tppf tpdf df 0 scale a2 := by
  refine ⟨?_, ?_, ?_, ?_⟩
  · have := mul_lt_mul_of_pos_left hq hs
    simp only [compute_var_normal]
    linarith
  · have := mul_lt_mul_of_pos_left hc hs
    simp only [compute_cvar_normal]
    linarith
  · have := mul_lt_mul_of_pos_left htq hs
    simp only [compute_var_student_t]
    linarith
  · have := mul_lt_mul_of_pos_left htc hs
    simp only [compute_cvar_student_t]
    linarith [mul_assoc scale (tpdf (tppf a1 df) df / a1)
        ((df + (tppf a1 df) ^ 2) / (df - 1)),
      mul_assoc scale (tpdf (tppf a2 df) df / a2)
        ((df + (tppf a2 df) ^ 2) / (df - 1))]

/-- Witness for C8: scale = 1, a1 = 1/4, a2 = 1/2, df = 2, with stand-ins
ppf = tppf = a ↦ a − 1/2 and pdf = tpdf = constant 1, all four strict
inequalities hold. -/
theorem C8_witness :
    compute_var_normal (fun a => a - 1/2) 0 1 (1/4) <
        compute_var_normal (fun a => a - 1/2) 0 1 (1/2)
    ∧ compute_cvar_normal (fun a => a - 1/2) (fun _ => 1) 0 1 (1/4) <
        compute_cvar_normal (fun a => a - 1/2) (fun _ => 1) 0 1 (1/2)
    ∧ compute_var_student_t (fun a _ => a - 1/2) 2 0 1 (1/4) <
        compute_var_student_t (fun a _ => a - 1/2) 2 0 1 (1/2)
    ∧ compute_cvar_student_t (fun a _ => a - 1/2) (fun _ _ => 1) 2 0 1 (1/4) <
        compute_cvar_student_t (fun a _ => a - 1/2) (fun _ _ => 1) 2 0 1 (1/2) :=
  C8_alpha_monotonicity (fun a => a - 1/2) (fun _ => 1) (fun a _ => a - 1/2)
    (fun _ _ => 1) 2 1 (1/4) (1/2)
    (by norm_num) (by norm_num) (by norm_num) (by norm_num) (by norm_num)
    (by norm_num) (by norm_num) (by norm_num) (by norm_num)

/-- C9: each of the four functions is determined solely by its arguments:
two calls with pairwise equal arguments return equal results.  (The source
bodies are single arithmetic expressions over the arguments and reentrant
library calls; the embedding is a pure function, so there is no state to
mutate and no I/O.) -/
theorem C9_referential_transparency
    (ppf pdf : ℚ → ℚ) (tppf tpdf : ℚ → ℚ → ℚ)
    (mu1 sigma1 alpha1 mu2 sigma2 alpha2 df1 loc1 scale1 df2 loc2 scale2 : ℚ)
    (hmu : mu1 = mu2) (hsig : sigma1 = sigma2) (hal : alpha1 = alpha2)
    (hdf : df1 = df2) (hloc : loc1 = loc2) (hsc : scale1 = scale2) :
    compute_var_normal ppf mu1 sigma1 alpha1 = compute_var_normal ppf mu2 sigma2 alpha2
    ∧ compute_cvar_normal ppf pdf mu1 sigma1 alpha1 =
        compute_cvar_normal ppf pdf mu2 sigma2 alpha2
    ∧ compute_var_student_t tppf df1 loc1 scale1 alpha1 =
        compute_var_student_t tppf df2 loc2 scale2 alpha2
    ∧ compute_cvar_student_t tppf tpdf df1 loc1 scale1 alpha1 =
        compute_cvar_student_t tppf tpdf df2 loc2 scale2 alpha2 := by
  subst hmu hsig hal hdf hloc hsc
  exact ⟨rfl, rfl, rfl, rfl⟩

/-- Witness for C9: two calls with the same concrete arguments agree, for
all four functions. -/
theorem C9_witness :
    compute_var_normal (fun a => a - 1/2) 0 1 (1/20) =
        compute_var_normal (fun a => a - 1/2) 0 1 (1/20)
    ∧ compute_cvar_normal (fun a => a - 1/2) (fun _ => 1) 0 1 (1/20) =
        compute_cvar_normal (fun a => a - 1/2) (fun _ => 1) 0 1 (1/20)
    ∧ compute_var_student_t (fun a _ => a - 1/2) 3 0 1 (1/20) =
        compute_var_student_t (fun a _ => a - 1/2) 3 0 1 (1/20)
    ∧ compute_cvar_student_t (fun a _ => a - 1/2) (fun _ _ => 1) 3 0 1 (1/20) =
        compute_cvar_student_t (fun a _ => a - 1/2) (fun _ _ => 1) 3 0 1 (1/20) :=
  C9_referential_transparency (fun a => a - 1/2) (fun _ => 1) (fun a _ => a - 1/2)
    (fun _ _ => 1) 0 1 (1/20) 0 1 (1/20) 3 0 1 3 0 1
    rfl rfl rfl rfl rfl rfl

/-- C10: affine equivariance in location and scale for all four functions:
f(m, s, alpha) = m + s * f(0, 1, alpha), on valid inputs (s > 0, alpha in
(0,1), df > 1 so the CVaR inputs are valid too). -/
theorem C10_affine_equivariance
    (ppf pdf : ℚ → ℚ) (tppf tpdf : ℚ → ℚ → ℚ)
    (df m s alpha : ℚ)
    (hs : 0 < s) (ha0 : 0 < alpha) (ha1 : alpha < 1) (hdf : 1 < df) :
    compute_var_normal ppf m s alpha = m + s * compute_var_normal ppf 0 1 alpha
    ∧ compute_cvar_normal ppf pdf m s alpha =
        m + s * compute_cvar_normal ppf pdf 0 1 alpha
    ∧ compute_var_student_t tppf df m s alpha =
        m + s * compute_var_student_t tppf df 0 1 alpha
    ∧ compute_cvar_student_t tppf tpdf df m s alpha =
        m + s * compute_cvar_student_t tppf tpdf df 0 1 alpha := by
  refine ⟨?_, ?_, ?_, ?_⟩
  · simp only [compute_var_normal]; ring
  · simp only [compute_cvar_normal]; ring
  · simp only [compute_var_student_t]; ring
  · simp only [compute_cvar_student_t]; ring

/-- Witness for C10: the four equalities at m = 1/10, s = 2, alpha = 1/20,
df = 3, with concrete stand-ins for the library functions. -/
theorem C10_witness :
    compute_var_normal (fun a => a - 1/2) (1/10) 2 (1/20) =
        1/10 + 2 * compute_var_normal (fun a => a - 1/2) 0 1 (1/20)
    ∧ compute_cvar_normal (fun a => a - 1/2) (fun _ => 1) (1/10) 2 (1/20) =
        1/10 + 2 * compute_cvar_normal (fun a => a - 1/2) (fun _ => 1) 0 1 (1/20)
    ∧ compute_var_student_t (fun a _ => a - 1/2) 3 (1/10) 2 (1/20) =
        1/10 + 2 * compute_var_student_t (fun a _ => a - 1/2) 3 0 1 (1/20)
    ∧ compute_cvar_student_t (fun a _ => a - 1/2) (fun _ _ => 1) 3 (1/10) 2 (1/20) =
        1/10 + 2 * compute_cvar_student_t (fun a _ => a - 1/2) (fun _ _ => 1) 3 0 1 (1/20) :=
  C10_affine_equivariance (fun a => a - 1/2) (fun _ => 1) (fun a _ => a - 1/2)
    (fun _ _ => 1) 3 (1/10) 2 (1/20)
    (by norm_num) (by norm_num) (by norm_num) (by norm_num)

end RiskMetrics
